import Mathlib

/-!
Shallow embedding of the lead-automation repository core, for checking its
natural-language specification.

Modules embedded (from the repository source):
  * `src/crm/sheets.py`            — `GoogleSheetsCRM`: column map, row decode,
    dedup-guarded insert, lookups, targeted update, Instantly merge.
  * `src/outreach/sync_replies.py` — reply classification, pagination, the
    reply-only sync pass, and the module-level convenience entry point.
  * `src/outreach/sync_instantly.py` — the engagement-sync variant.
  * `src/outreach/personalize.py`  — `calculate_lead_score`.
  * `scripts/sync_replies.py`      — the CLI wrapper and its exit code.

Modelling conventions:
  * Python strings are Lean `String` (ASCII fragment: `pyLower` lowers the
    ASCII range, which covers every literal the code compares against).
  * A Python dict field that may be absent is `Option _`; `d.get(k, v)` is
    `(field).getD v`.  Python truthiness of a string is `s != ""`.
  * I/O against the backing spreadsheet is explicit state passing on
    `SheetState`; a store call that raises (caught by the code and turned
    into a `False` result) is modelled by the `failingIds` component.
  * Timestamps produced by `datetime.now()` are explicit `String` parameters.
-/

/-- ASCII fragment of Python `str.lower`: lowers the letters A..Z. -/
def pyLowerChar (c : Char) : Char :=
  if 'A' ≤ c ∧ c ≤ 'Z' then Char.ofNat (c.toNat + 32) else c

/-- Python `s.lower()` on a string (ASCII fragment). -/
def pyLower (s : String) : String :=
  ⟨s.data.map pyLowerChar⟩

/-- Python truthiness of an optional string: `None` and `""` are falsy. -/
def pyTruthy (o : Option String) : Bool :=
  o.getD "" != ""

/-- Python `a or b` on optional strings (`None` and `""` are falsy). -/
def pyOrStr (a b : Option String) : Option String :=
  if pyTruthy a then a else b

/-- A Python scalar that may be a string or an integer (used for the
loosely-typed `employee_count` and `lead_score` dict values). -/
inductive PyScalar where
  | s (v : String)
  | i (v : Int)
deriving Repr, DecidableEq

/-- Python `str(...)` on an optional scalar; an absent value stands for the
dict-lookup default `""` used at the call sites. -/
def pyStr (v : Option PyScalar) : String :=
  match v with
  | none => ""
  | some (.s v) => v
  | some (.i v) => toString v

/-! ## Record store adapter and CRM repository (`src/crm/sheets.py`) -/

/-- `CRM_HEADERS` from `src/crm/sheets.py`. -/
def CRM_HEADERS : List String :=
  ["ID", "Company", "Contact Name", "Email", "Phone", "Website", "Industry",
   "Employee Count", "City", "Country", "Lead Score", "Status", "Date Added",
   "Last Contact", "Email 1 Sent", "Email 2 Sent", "Email 3 Sent",
   "Email 4 Sent", "Opens", "Clicks", "Response", "Notes", "Source",
   "LinkedIn", "Title", "Instantly Status"]

/-- A spreadsheet row: an ordered list of cell strings. -/
abbrev Row := List String

/-- The padding loop of `_row_to_dict`:
`while len(row) < len(CRM_HEADERS): row.append("")`. -/
def padRow (row : Row) : Row :=
  row ++ List.replicate (CRM_HEADERS.length - row.length) ""

/-- The typed view of a row produced by `GoogleSheetsCRM._row_to_dict`. -/
structure LeadDict where
  id : String
  company : String
  contact_name : String
  email : String
  phone : String
  website : String
  industry : String
  employee_count : String
  city : String
  country : String
  lead_score : String
  status : String
  date_added : String
  last_contact : String
  email_1_sent : String
  email_2_sent : String
  email_3_sent : String
  email_4_sent : String
  opens : String
  clicks : String
  response : String
  notes : String
  source : String
  linkedin : String
  title : String
  instantly_status : String
deriving Repr, DecidableEq

/-- `GoogleSheetsCRM._row_to_dict`: pad the row to the header length, then
read the fields positionally.  The guarded reads for indices 18..25 mirror
the source conditionals `row[i] if len(row) > i else default` (evaluated,
as in the source, against the already padded row). -/
def rowToDict (row : Row) : LeadDict :=
  let r := padRow row
  { id := r.getD 0 ""
    company := r.getD 1 ""
    contact_name := r.getD 2 ""
    email := r.getD 3 ""
    phone := r.getD 4 ""
    website := r.getD 5 ""
    industry := r.getD 6 ""
    employee_count := r.getD 7 ""
    city := r.getD 8 ""
    country := r.getD 9 ""
    lead_score := r.getD 10 ""
    status := r.getD 11 ""
    date_added := r.getD 12 ""
    last_contact := r.getD 13 ""
    email_1_sent := r.getD 14 ""
    email_2_sent := r.getD 15 ""
    email_3_sent := r.getD 16 ""
    email_4_sent := r.getD 17 ""
    opens := if 18 < r.length then r.getD 18 "0" else "0"
    clicks := if 19 < r.length then r.getD 19 "0" else "0"
    response := if 20 < r.length then r.getD 20 "" else ""
    notes := if 21 < r.length then r.getD 21 "" else ""
    source := if 22 < r.length then r.getD 22 "" else ""
    linkedin := if 23 < r.length then r.getD 23 "" else ""
    title := if 24 < r.length then r.getD 24 "" else ""
    instantly_status := if 25 < r.length then r.getD 25 "" else "" }

/-- The fields of a decoded lead, in declared column order (for stating
properties uniformly over all 26 columns). -/
def LeadDict.fields (d : LeadDict) : List String :=
  [d.id, d.company, d.contact_name, d.email, d.phone, d.website, d.industry,
   d.employee_count, d.city, d.country, d.lead_score, d.status, d.date_added,
   d.last_contact, d.email_1_sent, d.email_2_sent, d.email_3_sent,
   d.email_4_sent, d.opens, d.clicks, d.response, d.notes, d.source,
   d.linkedin, d.title, d.instantly_status]

/-- The state of the backing spreadsheet.  `rows` are the worksheet rows in
sheet order (the header row, when present, is simply the first row).
`failingIds` models the backing store raising on a cell update for the row
holding that lead id; `update_lead` catches such exceptions and returns
`False` (sheets.py lines 265-267). -/
structure SheetState where
  rows : List Row
  failingIds : List String
deriving Repr, DecidableEq

/-- `gspread.Worksheet.find(value, in_column=col)`: the first row (top to
bottom) whose cell in 1-based column `col` equals `value` exactly
(gspread matches with `case_sensitive=True` by default). -/
def findCellRow (rows : List Row) (value : String) (col : Nat) : Option Row :=
  rows.find? (fun r => r.getD (col - 1) "" == value)

/-- `GoogleSheetsCRM.find_lead_by_email`: exact `find` on column 4,
then decode the matched row. -/
def find_lead_by_email (st : SheetState) (email : String) : Option LeadDict :=
  (findCellRow st.rows email 4).map rowToDict

/-- `GoogleSheetsCRM.find_lead_by_company`: `findall` on column 2 in sheet
order, skipping rows whose decoded city differs case-insensitively from a
truthy `city` argument, returning the first survivor. -/
def find_lead_by_company (st : SheetState) (company city : String) :
    Option LeadDict :=
  ((st.rows.filter (fun r => r.getD 1 "" == company)).find?
    (fun r => !(city != "" && pyLower (rowToDict r).city != pyLower city))).map
    rowToDict

/-- The key of a header in `update_lead`s `field_to_col` table:
`header.lower().replace(" ", "_")`. -/
def headerKey (h : String) : String :=
  ⟨(pyLower h).data.map (fun c => if c = ' ' then '_' else c)⟩

/-- `field_to_col.get(field.lower())`: the 1-based column of a field name,
`none` for unknown fields. -/
def fieldToCol (field : String) : Option Nat :=
  (CRM_HEADERS.findIdx? (fun h => headerKey h == pyLower field)).map (· + 1)

/-- One `update_cell` call applied to an in-memory row. -/
def setCell (r : Row) (col : Nat) (value : String) : Row :=
  r.set (col - 1) value

/-- `GoogleSheetsCRM.update_lead`: locate the row by exact id match on
column 1; apply each update whose field name is a known column, skipping
unknown fields; return `False` (state unchanged) when the id is absent or
when the backing store raises (modelled by `failingIds`). -/
def update_lead (st : SheetState) (lead_id : String)
    (updates : List (String × String)) : Bool × SheetState :=
  if lead_id ∈ st.failingIds then
    (false, st)
  else
    match st.rows.findIdx? (fun r => r.getD 0 "" == lead_id) with
    | none => (false, st)
    | some rowIdx =>
        let newRow := updates.foldl
          (fun r fv =>
            match fieldToCol fv.1 with
            | some col => setCell r col fv.2
            | none => r)
          (st.rows.getD rowIdx [])
        (true, { st with rows := st.rows.set rowIdx newRow })

/-- `GoogleSheetsCRM.mark_response_received`. -/
def mark_response_received (st : SheetState) (lead_id response_text : String) :
    Bool × SheetState :=
  update_lead st lead_id [("response", response_text), ("status", "Replied")]

/-- The `instantly_data` dict passed to `update_from_instantly`:
each key may be absent. -/
structure InstantlyData where
  opens : Option Int := none
  clicks : Option Int := none
  instantly_status : Option String := none
  response : Option String := none
deriving Repr, DecidableEq

/-- `GoogleSheetsCRM.update_from_instantly`: look the lead up by email,
assemble the present fields into one update (adding `status = "Replied"`
when a truthy reply text is present), and apply it. -/
def update_from_instantly (st : SheetState) (email : String)
    (d : InstantlyData) : Bool × SheetState :=
  match find_lead_by_email st email with
  | none => (false, st)
  | some lead =>
      let updates : List (String × String) :=
        (match d.opens with
         | some v => [("opens", toString v)]
         | none => []) ++
        (match d.clicks with
         | some v => [("clicks", toString v)]
         | none => []) ++
        (match d.instantly_status with
         | some v => [("instantly_status", v)]
         | none => []) ++
        (match d.response with
         | some v => if v != "" then [("response", v), ("status", "Replied")] else []
         | none => [])
      if updates.isEmpty then (true, st)
      else update_lead st lead.id updates

/-- The `lead_data` dict consumed by `add_lead`: each key may be absent;
`employee_count` and `lead_score` are loosely typed scalars. -/
structure LeadData where
  company : Option String := none
  contact_name : Option String := none
  email : Option String := none
  phone : Option String := none
  website : Option String := none
  industry : Option String := none
  employee_count : Option PyScalar := none
  city : Option String := none
  country : Option String := none
  lead_score : Option PyScalar := none
  status : Option String := none
  notes : Option String := none
  source : Option String := none
  linkedin : Option String := none
  title : Option String := none
deriving Repr, DecidableEq

/-- The row literal built by `add_lead` before `append_row`.  `idStamp` is
the `_generate_id` timestamp, `dateStamp` the `Date Added` timestamp. -/
def encodeLeadRow (lead : LeadData) (idStamp dateStamp : String) : Row :=
  ["LEAD-" ++ idStamp,
   lead.company.getD "",
   lead.contact_name.getD "",
   lead.email.getD "",
   lead.phone.getD "",
   lead.website.getD "",
   lead.industry.getD "",
   pyStr lead.employee_count,
   lead.city.getD "",
   lead.country.getD "",
   pyStr lead.lead_score,
   lead.status.getD "New",
   dateStamp,
   "",
   "FALSE", "FALSE", "FALSE", "FALSE",
   "0", "0",
   "",
   lead.notes.getD "",
   lead.source.getD "",
   lead.linkedin.getD "",
   lead.title.getD "",
   ""]

/-- `GoogleSheetsCRM.add_lead`: dedup by email (when truthy), then by
company and city (when the company is truthy); on a duplicate return the
sentinel `none` without writing; otherwise append exactly one encoded row
and return the generated id. -/
def add_lead (st : SheetState) (lead : LeadData) (idStamp dateStamp : String) :
    Option String × SheetState :=
  let email := lead.email.getD ""
  if email != "" && (find_lead_by_email st email).isSome then
    (none, st)
  else
    let company := lead.company.getD ""
    let city := lead.city.getD ""
    if company != "" && (find_lead_by_company st company city).isSome then
      (none, st)
    else
      (some ("LEAD-" ++ idStamp),
       { st with rows := st.rows ++ [encodeLeadRow lead idStamp dateStamp] })

/-! ## Lead scoring (`src/outreach/personalize.py`, `calculate_lead_score`) -/

/-- Whitespace stripped by Python `int(str)` (ASCII fragment). -/
def pySpaceChar (c : Char) : Bool :=
  c = ' ' || c = '\t' || c = '\n' || c = '\r'

/-- The value of a nonempty list of decimal digit characters. -/
def digitsVal (ds : List Char) : Nat :=
  ds.foldl (fun acc c => acc * 10 + (c.toNat - 48)) 0

/-- Python `int(str)` (ASCII fragment, without underscore separators):
strip surrounding whitespace, allow one leading sign, then require at
least one digit and nothing else; otherwise the call raises (here:
`none`). -/
def pyInt (cs : List Char) : Option Int :=
  let t := ((cs.dropWhile pySpaceChar).reverse.dropWhile pySpaceChar).reverse
  let signDigits : Bool × List Char :=
    match t with
    | c :: rest =>
        if c = '-' then (true, rest)
        else if c = '+' then (false, rest)
        else (false, t)
    | [] => (false, [])
  let ds := signDigits.2
  if !ds.isEmpty && ds.all Char.isDigit then
    some (if signDigits.1 then -(digitsVal ds : Int) else (digitsVal ds : Int))
  else none

/-- Lines 222-227 of personalize.py: a string employee count is parsed by
`int(emp_count.replace(",", "").split("-")[0])`, any exception yielding 0;
an integer is used as is; an absent key defaults to 0. -/
def parsedEmployeeCount (v : Option PyScalar) : Int :=
  match v with
  | none => 0
  | some (.i n) => n
  | some (.s s) =>
      match pyInt (((s.data.filter (fun c => c ≠ ',')).splitOn '-').headD []) with
      | some n => n
      | none => 0

/-- Lines 229-232 of personalize.py: the points contributed by the
employee count. -/
def empCountPoints (v : Option PyScalar) : Int :=
  let emp := parsedEmployeeCount v
  if 10 ≤ emp ∧ emp ≤ 100 then 2
  else if 5 ≤ emp ∧ emp ≤ 200 then 1
  else 0

/-- `good_industries` from personalize.py line 235. -/
def goodIndustries : List String :=
  ["marketing", "advertising", "media", "communications", "pr", "creative",
   "digital"]

/-- Python substring containment `needle in hay`. -/
def containsSub (needle hay : List Char) : Bool :=
  hay.tails.any needle.isPrefixOf

/-- The lead dict fields read by `calculate_lead_score`; absent keys are
`none`. -/
structure ScoreLead where
  email : Option String := none
  website : Option String := none
  phone : Option String := none
  employee_count : Option PyScalar := none
  industry : Option String := none
  linkedin : Option String := none
deriving Repr, DecidableEq

/-- `calculate_lead_score` from personalize.py lines 197-244. -/
def calculate_lead_score (lead : ScoreLead) : Int :=
  let score : Int := 0
  let score := if pyTruthy lead.email then score + 2 else score
  let score := if pyTruthy lead.website then score + 1 else score
  let score := if pyTruthy lead.phone then score + 1 else score
  let score := score + empCountPoints lead.employee_count
  let industry := pyLower (lead.industry.getD "")
  let score :=
    if goodIndustries.any (fun g => containsSub g.data industry.data) then
      score + 2
    else score
  let score := if pyTruthy lead.linkedin then score + 1 else score
  min score 10

/-! ## Reply sync engine (`src/outreach/sync_replies.py`) -/

/-- A raw platform lead as consumed by `get_replied_leads`; every field of
the loosely-typed response shape may be absent. -/
structure InstLeadR where
  email : Option String := none
  status : Option String := none
  replied : Option Bool := none
  reply_count : Option Int := none
  replied_at : Option String := none
  last_reply_at : Option String := none
  reply_text : Option String := none
deriving Repr, DecidableEq

/-- Lines 85-90 of sync_replies.py: a lead has replied when the lowered
status string equals "replied", or the `replied` flag is truthy, or the
reply counter is positive; absent fields take the defaults `""`, `False`
and `0`. -/
def hasRepliedLead (l : InstLeadR) : Bool :=
  pyLower (l.status.getD "") == "replied" ||
  l.replied.getD false ||
  l.reply_count.getD 0 > 0

/-- The entry appended to `replied_leads` (lines 93-98). -/
structure RepliedEntry where
  email : Option String
  replied_at : Option String
  reply_text : String
  status : String
deriving Repr, DecidableEq

/-- Builds the replied-lead entry of lines 93-98. -/
def mkRepliedEntry (l : InstLeadR) : RepliedEntry :=
  { email := l.email
    replied_at := pyOrStr l.replied_at l.last_reply_at
    reply_text := l.reply_text.getD ""
    status := pyLower (l.status.getD "") }

/-- The pagination loop of `get_replied_leads` (lines 59-106), fetching
pages of size `lim` from the platform with an offset cursor.  The platform
holds `allLeads`; a request at `offset` returns
`(allLeads.drop offset).take lim`.  Returns the accumulated replied
entries together with the number of page requests made.  The loop breaks
on an empty page and after any page shorter than `lim`. -/
def getRepliedLeadsAux (allLeads : List InstLeadR) (lim offset : Nat) :
    List RepliedEntry × Nat :=
  if h : ((allLeads.drop offset).take lim).isEmpty then ([], 1)
  else
    let page := (allLeads.drop offset).take lim
    let entries := (page.filter hasRepliedLead).map mkRepliedEntry
    if page.length < lim then (entries, 1)
    else
      let rest := getRepliedLeadsAux allLeads lim (offset + lim)
      (entries ++ rest.1, rest.2 + 1)
termination_by allLeads.length - offset
decreasing_by
  rw [List.isEmpty_iff] at h
  have hlim : lim ≠ 0 := by
    intro hl
    exact h (by simp [hl])
  have hoff : offset < allLeads.length := by
    by_contra hc
    push_neg at hc
    exact h (by simp [List.drop_eq_nil_of_le hc])
  omega

/-- `get_replied_leads` with the source page size 100: the replied entries. -/
def get_replied_leads (allLeads : List InstLeadR) : List RepliedEntry :=
  (getRepliedLeadsAux allLeads 100 0).1

/-- The number of page requests `get_replied_leads` makes. -/
def repliedLeadsRequests (allLeads : List InstLeadR) : Nat :=
  (getRepliedLeadsAux allLeads 100 0).2

/-- The summary record returned by `InstantlySyncer.sync_replies`. -/
structure SyncResults where
  campaigns_checked : Nat
  replies_found : Nat
  crm_updated : Nat
  already_synced : Nat
  not_in_crm : Nat
  errors : List String
deriving Repr, DecidableEq

/-- A campaign as seen by a sync engine: its display name and the outcome
of fetching its leads from the platform (an exception inside the
per-campaign `try` block is the `Except.error` case, carrying the message
interpolated into the recorded error string). -/
structure Campaign (α : Type) where
  name : Option String := none
  fetch : Except String (List α)
deriving Repr

/-- Lines 140-168 of sync_replies.py: processing of one replied entry.
Entries without a truthy email are skipped; an email missing from the CRM
counts `not_in_crm`; a CRM lead with a truthy `response` counts
`already_synced` and is left untouched; otherwise the reply text (or the
synthesized fallback) is written through `mark_response_received`,
counting `crm_updated` on success and recording an error string on
failure. -/
def processRepliedLead (st : SheetState) (res : SyncResults)
    (entry : RepliedEntry) : SheetState × SyncResults :=
  match entry.email with
  | none => (st, res)
  | some email =>
    if email == "" then (st, res)
    else
      match find_lead_by_email st email with
      | none => (st, { res with not_in_crm := res.not_in_crm + 1 })
      | some crm_lead =>
          if crm_lead.response != "" then
            (st, { res with already_synced := res.already_synced + 1 })
          else
            let reply_text :=
              if entry.reply_text != "" then entry.reply_text
              else "Replied on " ++ entry.replied_at.getD "None"
            let r := mark_response_received st crm_lead.id reply_text
            if r.1 then
              (r.2, { res with crm_updated := res.crm_updated + 1 })
            else
              (r.2, { res with errors := res.errors ++ ["Failed to update " ++ email] })

/-- Lines 129-173 of sync_replies.py: one campaign of the reply-only
pass. -/
def processCampaignR (acc : SheetState × SyncResults)
    (c : Campaign InstLeadR) : SheetState × SyncResults :=
  let campaign_name := c.name.getD "Unknown"
  match c.fetch with
  | .error e =>
      (acc.1, { acc.2 with
        errors := acc.2.errors ++ ["Error syncing campaign " ++ campaign_name ++ ": " ++ e] })
  | .ok leads =>
      let replied := get_replied_leads leads
      let res := { acc.2 with replies_found := acc.2.replies_found + replied.length }
      replied.foldl (fun p entry => processRepliedLead p.1 p.2 entry) (acc.1, res)

/-- `InstantlySyncer.sync_replies` (lines 108-182): the reply-only sync
pass over all campaigns. -/
def sync_replies (campaigns : List (Campaign InstLeadR)) (st : SheetState) :
    SyncResults × SheetState :=
  let res0 : SyncResults :=
    { campaigns_checked := campaigns.length
      replies_found := 0
      crm_updated := 0
      already_synced := 0
      not_in_crm := 0
      errors := [] }
  let p := campaigns.foldl processCampaignR (st, res0)
  (p.2, p.1)

/-! ## Engagement-sync variant (`src/outreach/sync_instantly.py`) -/

/-- `INSTANTLY_STATUS` from sync_instantly.py lines 19-31, as the
association list underlying the Python dict. -/
def INSTANTLY_STATUS : List (Int × String) :=
  [(0, "Not Started"), (1, "Active"), (2, "Paused"), (3, "Completed"),
   (4, "Bounced"), (5, "Unsubscribed"), (6, "Replied"), (7, "Interested"),
   (8, "Not Interested"), (9, "Meeting Booked"), (10, "Closed")]

/-- `INSTANTLY_STATUS.get(lead.get("status", 0), f"Unknown (...)")`: the
display label of a platform status code.  The fallback interpolates the
undefaulted `lead.get("status")`, which Python renders as `None` when the
key is absent. -/
def instantlyStatusLabel (status : Option Int) : String :=
  match (INSTANTLY_STATUS.find? (fun p => p.1 == status.getD 0)).map (fun p => p.2) with
  | some label => label
  | none =>
      "Unknown (" ++ (match status with
                      | some c => toString c
                      | none => "None") ++ ")"

/-- A platform lead as consumed by `sync_all_leads`; every field may be
absent. -/
structure InstLeadE where
  email : Option String := none
  email_open_count : Option Int := none
  email_click_count : Option Int := none
  email_reply_count : Option Int := none
  status : Option Int := none
deriving Repr, DecidableEq

/-- The summary record returned by `InstantlySyncer.sync_all_leads`. -/
structure SyncAllResults where
  campaigns_checked : Nat
  leads_checked : Nat
  crm_updated : Nat
  replies_found : Nat
  not_in_crm : Nat
  errors : List String
deriving Repr, DecidableEq

/-- Lines 94-121 of sync_instantly.py: processing of one platform lead in
the engagement-sync variant.  Opens, clicks and the mapped status label
are always written; a positive reply counter additionally puts a
synthesized reply text into the update.  A `False` result of
`update_from_instantly` is counted in `not_in_crm`. -/
def processInstantlyLead (st : SheetState) (res : SyncAllResults)
    (l : InstLeadE) : SheetState × SyncAllResults :=
  match l.email with
  | none => (st, res)
  | some email =>
    if email == "" then (st, res)
    else
      let replyCount := l.email_reply_count.getD 0
      let syncData : InstantlyData :=
        { opens := some (l.email_open_count.getD 0)
          clicks := some (l.email_click_count.getD 0)
          instantly_status := some (instantlyStatusLabel l.status)
          response :=
            if replyCount > 0 then
              some ("Replied (" ++ toString replyCount ++ " replies)")
            else none }
      let res :=
        if replyCount > 0 then
          { res with replies_found := res.replies_found + 1 }
        else res
      let r := update_from_instantly st email syncData
      if r.1 then
        (r.2, { res with crm_updated := res.crm_updated + 1 })
      else
        (r.2, { res with not_in_crm := res.not_in_crm + 1 })

/-- Lines 83-126 of sync_instantly.py: one campaign of the engagement-sync
variant. -/
def processCampaignE (acc : SheetState × SyncAllResults)
    (c : Campaign InstLeadE) : SheetState × SyncAllResults :=
  let campaign_name := c.name.getD "Unknown"
  match c.fetch with
  | .error e =>
      (acc.1, { acc.2 with
        errors := acc.2.errors ++ ["Error syncing campaign " ++ campaign_name ++ ": " ++ e] })
  | .ok leads =>
      let res := { acc.2 with leads_checked := acc.2.leads_checked + leads.length }
      leads.foldl (fun p l => processInstantlyLead p.1 p.2 l) (acc.1, res)

/-- `InstantlySyncer.sync_all_leads` (lines 62-135): the engagement-sync
variant over all campaigns. -/
def sync_all_leads (campaigns : List (Campaign InstLeadE)) (st : SheetState) :
    SyncAllResults × SheetState :=
  let res0 : SyncAllResults :=
    { campaigns_checked := campaigns.length
      leads_checked := 0
      crm_updated := 0
      replies_found := 0
      not_in_crm := 0
      errors := [] }
  let p := campaigns.foldl processCampaignE (st, res0)
  (p.2, p.1)

/-! ## CLI entry point (`scripts/sync_replies.py` and the module-level
convenience function of `src/outreach/sync_replies.py`) -/

/-- The names bound at module level in `src/outreach/sync_replies.py`
when `sync_replies_from_instantly` executes: the imports (lines 7-13),
the module logger (line 15), the class statement (line 18) and the
function itself (line 185).  No statement in the module binds the name
`ReplySyncer`. -/
def syncRepliesModuleNames : List String :=
  ["os", "datetime", "Optional", "structlog", "InstantlyClient",
   "GoogleSheetsCRM", "logger", "InstantlySyncer",
   "sync_replies_from_instantly"]

/-- `sync_replies_from_instantly` (sync_replies.py lines 185-226): raises
`ValueError` without an API key; otherwise line 225 evaluates the name
`ReplySyncer`, which succeeds only if the module scope binds it, and then
runs the reply-only sync pass. -/
def sync_replies_from_instantly (apiKey : Option String)
    (campaigns : List (Campaign InstLeadR)) (st : SheetState) :
    Except String (SyncResults × SheetState) :=
  match apiKey with
  | none => .error "ValueError: INSTANTLY_API_KEY not provided"
  | some _ =>
      if "ReplySyncer" ∈ syncRepliesModuleNames then
        .ok (sync_replies campaigns st)
      else
        .error "NameError: name ReplySyncer is not defined"

/-- `main` of `scripts/sync_replies.py` (lines 36-62): the process exit
code.  A run reaching the summary exits with
`1 if results["errors"] else 0` (line 58); any exception is caught and
exits 1 (lines 60-62). -/
def scriptSyncRepliesExit (apiKey : Option String)
    (campaigns : List (Campaign InstLeadR)) (st : SheetState) : Nat :=
  match sync_replies_from_instantly apiKey campaigns st with
  | .error _ => 1
  | .ok (results, _) => if results.errors.isEmpty then 0 else 1

/-! ## Concrete fixtures used by the verification theorems -/

/-- A fully populated CRM row whose reply has already been recorded:
its `Response` cell (column 21) holds "Interested". -/
def joRow : Row :=
  ["LEAD-1", "Acme", "Jo", "jo@acme.com", "", "", "", "", "Lisbon", "", "",
   "Replied", "", "", "FALSE", "FALSE", "FALSE", "FALSE", "3", "1",
   "Interested", "", "", "", "", ""]

/-- A CRM holding exactly the already-replied lead. -/
def joState : SheetState := { rows := [joRow], failingIds := [] }

/-- The same CRM, with the backing store failing on updates of that row. -/
def joFailState : SheetState := { rows := [joRow], failingIds := ["LEAD-1"] }

/-- A platform campaign for the engagement-sync variant whose single lead
matches the stored email and reports two replies. -/
def joCampaignE : Campaign InstLeadE :=
  { name := some "Spring"
    fetch := .ok [{ email := some "jo@acme.com", email_open_count := some 5,
                    email_click_count := some 2, email_reply_count := some 2,
                    status := some 6 }] }

/-- A platform campaign for the reply-only pass whose single lead matches
the stored email and carries a replied status. -/
def joCampaignR : Campaign InstLeadR :=
  { name := some "Spring"
    fetch := .ok [{ email := some "jo@acme.com", status := some "replied" }] }

/-- A CRM row whose stored email is mixed-case. -/
def johnRow : Row := ["LEAD-2", "Acme", "John", "John@Example.com"]

/-- The CRM holding only the mixed-case row. -/
def johnState : SheetState := { rows := [johnRow], failingIds := [] }

/-- The empty CRM. -/
def emptyState : SheetState := { rows := [], failingIds := [] }

/-- An engagement-sync summary with all counters at zero. -/
def zeroAllResults : SyncAllResults :=
  { campaigns_checked := 0, leads_checked := 0, crm_updated := 0
    replies_found := 0, not_in_crm := 0, errors := [] }

/-- A reply-sync summary with all counters at zero. -/
def zeroSyncResults : SyncResults :=
  { campaigns_checked := 0, replies_found := 0, crm_updated := 0
    already_synced := 0, not_in_crm := 0, errors := [] }

/-- The id cells (column 1) of the stored rows, in sheet order. -/
def rowIds (st : SheetState) : List String :=
  st.rows.map (fun r => r.getD 0 "")

/-- The preservation invariant of the reply-only pass, relating a reached
store `st` to the initial store `st0`: the row count and the failure
model are unchanged, every row keeps its id, and every row whose
`Response` cell (index 20) was non-empty initially still holds that
initial value. -/
def RespInv (st0 st : SheetState) : Prop :=
  st.rows.length = st0.rows.length ∧
  st.failingIds = st0.failingIds ∧
  ∀ i : Nat,
    (st.rows.getD i []).getD 0 "" = (st0.rows.getD i []).getD 0 "" ∧
    ((st0.rows.getD i []).getD 20 "" ≠ "" →
      (st.rows.getD i []).getD 20 "" = (st0.rows.getD i []).getD 20 "")

/-! ## Helper lemmas on padding and row decoding -/

theorem CRM_HEADERS_length : CRM_HEADERS.length = 26 := rfl

theorem padRow_length (row : Row) :
    (padRow row).length = max 26 row.length := by
  simp only [padRow, List.length_append, List.length_replicate,
    CRM_HEADERS_length]
  omega

theorem padRow_getD_default (row : Row) (i : Nat) :
    (padRow row).getD i "" = row.getD i "" := by
  rcases Nat.lt_or_ge i row.length with h | h
  · simp only [padRow, List.getD_eq_getElem?_getD, List.getElem?_append, h,
      if_pos]
  · rw [List.getD_eq_default _ _ h]
    simp only [padRow, List.getD_eq_getElem?_getD,
      List.getElem?_append_right h, List.getElem?_replicate]
    split <;> simp

theorem padRow_getD_short (row : Row) (i : Nat) (d : String)
    (h1 : row.length ≤ i) (h2 : i < 26) : (padRow row).getD i d = "" := by
  have : (padRow row)[i]? = some "" := by
    rw [padRow, List.getElem?_append_right h1, List.getElem?_replicate,
      CRM_HEADERS_length, if_pos (by omega)]
  simp [List.getD_eq_getElem?_getD, this]

theorem rowToDict_id (row : Row) : (rowToDict row).id = row.getD 0 "" := by
  show (padRow row).getD 0 "" = row.getD 0 ""
  exact padRow_getD_default row 0

theorem rowToDict_email (row : Row) :
    (rowToDict row).email = row.getD 3 "" := by
  show (padRow row).getD 3 "" = row.getD 3 ""
  exact padRow_getD_default row 3

theorem rowToDict_response (row : Row) :
    (rowToDict row).response = row.getD 20 "" := by
  have h : 20 < (padRow row).length := by rw [padRow_length]; omega
  show (if 20 < (padRow row).length then (padRow row).getD 20 "" else "") =
    row.getD 20 ""
  rw [if_pos h, padRow_getD_default]

theorem LeadDict_fields_length (d : LeadDict) : d.fields.length = 26 := rfl

/-- Claim C9: decode is total on short rows — for every row shorter than
the declared 26-column layout, `_row_to_dict` decodes without any
out-of-bounds access (`rowToDict` is a total function) and every field
whose column index is at or beyond the row's length decodes to the empty
string. -/
theorem C9_tolerant_decode (row : Row) (i : Nat) (h : row.length ≤ i) :
    ((rowToDict row).fields).getD i "" = "" := by
  rcases Nat.lt_or_ge i 26 with hi | hi
  · interval_cases i <;>
    · dsimp only [LeadDict.fields, List.getD_cons_zero, List.getD_cons_succ,
        rowToDict]
      first
      | exact padRow_getD_short row _ _ h (by omega)
      | (rw [if_pos (show _ < (padRow row).length by rw [padRow_length]; omega)]
         exact padRow_getD_short row _ _ h (by omega))
  · exact List.getD_eq_default _ _ (by rw [LeadDict_fields_length]; omega)

/-- Witness for C9 at a concrete 5-column row: field 7 (employee count)
decodes to the empty string. -/
theorem C9_witness :
    ((rowToDict ["LEAD-9", "Acme", "Ana", "ana@acme.com", "91"]).fields).getD
      7 "" = "" :=
  C9_tolerant_decode ["LEAD-9", "Acme", "Ana", "ana@acme.com", "91"] 7
    (by decide)

/-- Claim C3: reply classification is the OR of the three signals — the
lowered status string equals "replied", the boolean flag is set, or the
reply counter is positive — with absent fields never satisfying a signal;
and the lead with `reply_count=0`, `replied=false`, `status="Replied"` is
classified as replied. -/
theorem C3_reply_or_semantics :
    (∀ l : InstLeadR,
      hasRepliedLead l = true ↔
        (pyLower (l.status.getD "") = "replied" ∨ l.replied = some true ∨
         ∃ n : Int, l.reply_count = some n ∧ 0 < n)) ∧
    hasRepliedLead
      { status := some "Replied", replied := some false,
        reply_count := some 0 } = true := by
  constructor
  · rintro ⟨em, stt, rep, rc, ra, la, rt⟩
    rcases rep with _ | b <;> rcases rc with _ | n <;>
      (simp [hasRepliedLead]; try tauto)
  · decide

/-- Witness for C3 at a concrete lead: a lead with only the boolean flag
set is classified as replied. -/
theorem C3_witness :
    hasRepliedLead { replied := some true } = true :=
  (C3_reply_or_semantics.1 { replied := some true }).mpr (Or.inr (Or.inl rfl))

/-- Claim C8 is violated on the lower bound: the all-empty lead dict
scores 0, below the documented minimum of 1; the upper clamp at 10
holds. -/
theorem C8_score_bounds :
    calculate_lead_score {} = 0 ∧
    ∀ l : ScoreLead, calculate_lead_score l ≤ 10 := by
  constructor
  · decide
  · intro l
    dsimp only [calculate_lead_score]
    exact min_le_right _ _

/-- Request count of the pagination loop: fetching from a platform with
`k` leads remaining past the cursor makes `k / 100 + 1` page requests. -/
theorem repliedRequests_aux : ∀ (k : Nat) (ls : List InstLeadR) (offset : Nat),
    ls.length - offset = k →
    (getRepliedLeadsAux ls 100 offset).2 = k / 100 + 1 := by
  intro k
  induction k using Nat.strong_induction_on with
  | _ k ih =>
    intro ls offset hk
    rw [getRepliedLeadsAux]
    have hlen : ((ls.drop offset).take 100).length = min 100 k := by
      simp [List.length_take, List.length_drop, hk]
    by_cases hk0 : k = 0
    · have hc : ((ls.drop offset).take 100).isEmpty = true := by
        rw [List.isEmpty_iff, ← List.length_eq_zero, hlen]
        omega
      rw [dif_pos hc]
      simp [hk0]
    · have hc : ¬ ((ls.drop offset).take 100).isEmpty = true := by
        rw [List.isEmpty_iff, ← List.length_eq_zero, hlen]
        omega
      rw [dif_neg hc]
      dsimp only
      by_cases hsmall : k < 100
      · rw [if_pos (by omega)]
        have h0 : k / 100 = 0 := Nat.div_eq_of_lt hsmall
        simp [h0]
      · rw [if_neg (by omega)]
        have hrec := ih (k - 100) (by omega) ls (offset + 100) (by omega)
        dsimp only
        rw [hrec]
        omega

/-- Claim C2: the page loop of `get_replied_leads` terminates (the
function is total), making exactly `n / 100 + 1` page requests for a
campaign of `n` leads; in particular a campaign with exactly 100 leads
makes a second (empty-page) request and stops at two requests, and a
campaign with 101 leads also makes exactly two requests. -/
theorem C2_pagination_boundary :
    (∀ ls : List InstLeadR, repliedLeadsRequests ls = ls.length / 100 + 1) ∧
    (∀ ls : List InstLeadR, ls.length = 100 → repliedLeadsRequests ls = 2) ∧
    (∀ ls : List InstLeadR, ls.length = 101 → repliedLeadsRequests ls = 2) := by
  have hmain : ∀ ls : List InstLeadR,
      repliedLeadsRequests ls = ls.length / 100 + 1 := by
    intro ls
    have h := repliedRequests_aux ls.length ls 0 (by omega)
    simpa [repliedLeadsRequests] using h
  refine ⟨hmain, ?_, ?_⟩
  · intro ls h
    rw [hmain, h]
  · intro ls h
    rw [hmain, h]

/-- Witness for C2 at concrete platforms of exactly 100 and 101 leads. -/
theorem C2_witness :
    repliedLeadsRequests (List.replicate 100 ({} : InstLeadR)) = 2 ∧
    repliedLeadsRequests (List.replicate 101 ({} : InstLeadR)) = 2 :=
  ⟨C2_pagination_boundary.2.1 _ (by simp),
   C2_pagination_boundary.2.2 _ (by simp)⟩

theorem digit_not_space {c : Char} (h : c.isDigit = true) :
    pySpaceChar c = false := by
  have hd : 48 ≤ c.val.toNat ∧ c.val.toNat ≤ 57 := by
    simp only [Char.isDigit, Bool.and_eq_true, decide_eq_true_eq, ge_iff_le] at h
    exact ⟨h.1, h.2⟩
  simp only [pySpaceChar, Bool.or_eq_false_iff, decide_eq_false_iff_not]
  refine ⟨⟨⟨?_, ?_⟩, ?_⟩, ?_⟩ <;> intro hc <;> subst hc <;>
    exact absurd hd (by decide)

theorem digit_ne {c : Char} (h : c.isDigit = true) :
    c ≠ ',' ∧ c ≠ '-' ∧ c ≠ '+' := by
  have hd : 48 ≤ c.val.toNat ∧ c.val.toNat ≤ 57 := by
    simp only [Char.isDigit, Bool.and_eq_true, decide_eq_true_eq, ge_iff_le] at h
    exact ⟨h.1, h.2⟩
  refine ⟨?_, ?_, ?_⟩ <;> intro hc <;> subst hc <;> exact absurd hd (by decide)

theorem dropWhile_all_neg {p : Char → Bool} (l : List Char)
    (h : ∀ x ∈ l, p x = false) : l.dropWhile p = l := by
  cases l with
  | nil => rfl
  | cons c cs =>
      rw [List.dropWhile_cons, if_neg]
      simp [h c (by simp)]

theorem pyInt_no_strip_no_sign (c : Char) (cs : List Char)
    (hns : ∀ x ∈ c :: cs, pySpaceChar x = false)
    (hcm : ¬c = '-') (hcp : ¬c = '+') :
    pyInt (c :: cs) =
      if (c :: cs).all Char.isDigit then some ((digitsVal (c :: cs) : Int))
      else none := by
  have h1 : (c :: cs).dropWhile pySpaceChar = c :: cs := dropWhile_all_neg _ hns
  have h2 : (c :: cs).reverse.dropWhile pySpaceChar = (c :: cs).reverse :=
    dropWhile_all_neg _ (by intro x hx; exact hns x (List.mem_reverse.mp hx))
  simp only [pyInt, h1, h2, List.reverse_reverse]
  rw [if_neg hcm, if_neg hcp]
  simp only [List.isEmpty_cons, Bool.not_false, Bool.true_and]
  split <;> simp

theorem parsedEmp_range (a b : List Char) (ha : a ≠ [])
    (had : a.all Char.isDigit = true) :
    parsedEmployeeCount (some (.s ⟨a ++ '-' :: b⟩)) = (digitsVal a : Int) := by
  obtain ⟨c, cs, rfl⟩ : ∃ c cs, a = c :: cs := by
    cases a with
    | nil => exact absurd rfl ha
    | cons c cs => exact ⟨c, cs, rfl⟩
  have hmem : ∀ x ∈ c :: cs, x.isDigit = true := List.all_eq_true.mp had
  unfold parsedEmployeeCount
  have hfa : (c :: cs).filter (fun x => x ≠ ',') = c :: cs := by
    rw [List.filter_eq_self]
    intro x hx
    simpa using (digit_ne (hmem x hx)).1
  show (match pyInt (((((c :: cs) ++ '-' :: b).filter (fun x => x ≠ ',')).splitOn '-').headD []) with
        | some n => n
        | none => 0) = (digitsVal (c :: cs) : Int)
  rw [List.filter_append, hfa, List.filter_cons, if_pos (by decide)]
  simp only [List.splitOn]
  rw [List.splitOnP_first _ _ (fun x hx => by simpa using (digit_ne (hmem x hx)).2.1) '-' (by simp)]
  simp only [List.headD_cons]
  rw [pyInt_no_strip_no_sign c cs (fun x hx => digit_not_space (hmem x hx))
    (digit_ne (hmem c (by simp))).2.1 (digit_ne (hmem c (by simp))).2.2,
    if_pos had]

theorem parsedEmp_plus (a : List Char) (ha : a ≠ [])
    (had : a.all Char.isDigit = true) :
    parsedEmployeeCount (some (.s ⟨a ++ ['+']⟩)) = 0 := by
  obtain ⟨c, cs, rfl⟩ : ∃ c cs, a = c :: cs := by
    cases a with
    | nil => exact absurd rfl ha
    | cons c cs => exact ⟨c, cs, rfl⟩
  have hmem : ∀ x ∈ c :: cs, x.isDigit = true := List.all_eq_true.mp had
  unfold parsedEmployeeCount
  have hfa : (c :: cs).filter (fun x => x ≠ ',') = c :: cs := by
    rw [List.filter_eq_self]
    intro x hx
    simpa using (digit_ne (hmem x hx)).1
  show (match pyInt (((((c :: cs) ++ ['+']).filter (fun x => x ≠ ',')).splitOn '-').headD []) with
        | some n => n
        | none => (0 : Int)) = (0 : Int)
  rw [List.filter_append, hfa]
  rw [show (['+'].filter (fun x => x ≠ ',')) = ['+'] from by decide]
  simp only [List.splitOn]
  rw [List.splitOnP_eq_single _ _ ?hnod]
  case hnod =>
    intro x hx
    rcases List.mem_append.mp hx with hx | hx
    · simpa using (digit_ne (hmem x hx)).2.1
    · simp at hx
      subst hx
      decide
  simp only [List.headD_cons, List.cons_append]
  rw [pyInt_no_strip_no_sign c (cs ++ ['+']) ?hns ?hcm ?hcp]
  case hns =>
    intro x hx
    rcases hx with _ | ⟨_, hx⟩
    · exact digit_not_space (hmem c (by simp))
    · rcases List.mem_append.mp (by assumption) with hx2 | hx2
      · exact digit_not_space (hmem x (by simp [hx2]))
      · simp at hx2
        subst hx2
        decide
  case hcm => exact (digit_ne (hmem c (by simp))).2.1
  case hcp => exact (digit_ne (hmem c (by simp))).2.2
  rw [if_neg]
  · intro hall
    have h2 := List.all_eq_true.mp hall '+' (by simp)
    simp at h2

/-- Counterexample to claim C7 as stated: a trailing plus sign is not
stripped before `int(...)`, so "50+" is unparsable and contributes 0
where the claim predicts the +2 band for 50; the same lead with "50"
scores 2. -/
theorem C7_trailing_plus_counterexample :
    calculate_lead_score { employee_count := some (.s "50+") } = 0 ∧
    calculate_lead_score { employee_count := some (.s "50") } = 2 := by
  decide

/-- Claim C7 (amended): the employee-count contribution parses commas and
ranges (taking the lower bound of a range) tolerantly and awards +2 for a
parsed value in [10,100] and +1 for one in [5,200]; but a trailing plus
sign is not stripped, making such strings unparsable; every unparsable
string contributes 0 without raising (the contribution is total and
defined by the parsed value alone). -/
theorem C7_amended_employee_parsing :
    (∀ a b : List Char, a ≠ [] → a.all Char.isDigit = true →
      parsedEmployeeCount (some (.s ⟨a ++ '-' :: b⟩)) = (digitsVal a : Int)) ∧
    (∀ a : List Char, a ≠ [] → a.all Char.isDigit = true →
      parsedEmployeeCount (some (.s ⟨a ++ ['+']⟩)) = 0) ∧
    empCountPoints (some (.s "4,5")) = 2 ∧
    (∀ v : Option PyScalar,
      empCountPoints v =
        (if 10 ≤ parsedEmployeeCount v ∧ parsedEmployeeCount v ≤ 100 then 2
         else if 5 ≤ parsedEmployeeCount v ∧ parsedEmployeeCount v ≤ 200 then 1
         else 0)) :=
  ⟨parsedEmp_range, parsedEmp_plus, by decide, fun _ => rfl⟩

/-- Witness for C7 at concrete inputs: "10-50" parses to its lower bound
and "50+" contributes 0. -/
theorem C7_witness :
    parsedEmployeeCount (some (.s ⟨['1', '0'] ++ '-' :: ['5', '0']⟩)) =
      (digitsVal ['1', '0'] : Int) ∧
    parsedEmployeeCount (some (.s ⟨['5', '0'] ++ ['+']⟩)) = 0 :=
  ⟨C7_amended_employee_parsing.1 ['1', '0'] ['5', '0'] (by decide) (by decide),
   C7_amended_employee_parsing.2.1 ['5', '0'] (by decide) (by decide)⟩

/-- Claim C4: `add_lead` runs its dedup checks (by email when the email is
truthy, then by company and city when the company is truthy) before any
write; a positive check returns the sentinel `none` with the store
untouched (no error is raised — the function is total), and when neither
check fires it appends exactly one encoded row and returns the generated
id. -/
theorem C4_add_lead_dedup :
    ∀ (st : SheetState) (lead : LeadData) (idStamp dateStamp : String),
      (((lead.email.getD "" ≠ "" ∧
         (find_lead_by_email st (lead.email.getD "")).isSome) ∨
        (lead.company.getD "" ≠ "" ∧
         (find_lead_by_company st (lead.company.getD "")
           (lead.city.getD "")).isSome)) →
        add_lead st lead idStamp dateStamp = (none, st)) ∧
      (¬((lead.email.getD "" ≠ "" ∧
          (find_lead_by_email st (lead.email.getD "")).isSome) ∨
         (lead.company.getD "" ≠ "" ∧
          (find_lead_by_company st (lead.company.getD "")
            (lead.city.getD "")).isSome)) →
        add_lead st lead idStamp dateStamp =
          (some ("LEAD-" ++ idStamp),
           { st with rows := st.rows ++ [encodeLeadRow lead idStamp dateStamp] })) := by
  intro st lead idStamp dateStamp
  constructor
  · rintro (⟨he, hf⟩ | ⟨hc, hf⟩)
    · unfold add_lead
      dsimp only
      rw [if_pos (by simp [bne_iff_ne, he, hf])]
    · unfold add_lead
      dsimp only
      by_cases h1 : (lead.email.getD "" != "" &&
          (find_lead_by_email st (lead.email.getD "")).isSome) = true
      · rw [if_pos h1]
      · rw [if_neg h1, if_pos (by simp [bne_iff_ne, hc, hf])]
  · intro h
    rw [not_or] at h
    obtain ⟨hA, hB⟩ := h
    unfold add_lead
    dsimp only
    rw [if_neg, if_neg]
    · intro hb
      rw [Bool.and_eq_true, bne_iff_ne] at hb
      exact hB ⟨hb.1, hb.2⟩
    · intro hb
      rw [Bool.and_eq_true, bne_iff_ne] at hb
      exact hA ⟨hb.1, hb.2⟩

/-- Claim C5 (amended): `find_lead_by_email` is an exact, case-sensitive
match on the email column — it finds a lead exactly when some stored row
carries the query string verbatim in column 4, and a returned lead's
email equals the query exactly. -/
theorem C5_amended_exact_match :
    ∀ (st : SheetState) (email : String),
      ((find_lead_by_email st email).isSome ↔
        ∃ r ∈ st.rows, r.getD 3 "" = email) ∧
      (∀ lead, find_lead_by_email st email = some lead →
        lead.email = email) := by
  intro st email
  constructor
  · simp [find_lead_by_email, findCellRow, List.find?_isSome]
  · intro lead hl
    unfold find_lead_by_email findCellRow at hl
    obtain ⟨r, hr, hmap⟩ := Option.map_eq_some'.mp hl
    have hp := List.find?_some hr
    rw [← hmap, rowToDict_email]
    simpa using hp

/-- Counterexample to claim C5 as stated: the stored email
"John@Example.com" and the query "john@example.com" differ only in letter
case (their lowerings agree), yet `find_lead_by_email` returns
not-found. -/
theorem C5_case_counterexample :
    find_lead_by_email johnState "john@example.com" = none ∧
    (rowToDict johnRow).email = "John@Example.com" ∧
    pyLower "John@Example.com" = pyLower "john@example.com" := by
  decide

/-- Witness for C5 at a concrete store: the exact query is found. -/
theorem C5_witness :
    (find_lead_by_email johnState "John@Example.com").isSome = true :=
  (C5_amended_exact_match johnState "John@Example.com").1.mpr
    ⟨johnRow, by simp [johnState], by decide⟩

/-- Witness for C4 at a concrete insert into the empty store. -/
theorem C4_witness :
    add_lead emptyState { email := some "ana@acme.com", company := some "Acme" }
      "20240101" "2024-01-01" =
      (some ("LEAD-" ++ "20240101"),
       { emptyState with
         rows := emptyState.rows ++
           [encodeLeadRow { email := some "ana@acme.com", company := some "Acme" }
             "20240101" "2024-01-01"] }) :=
  (C4_add_lead_dedup emptyState
    { email := some "ana@acme.com", company := some "Acme" }
    "20240101" "2024-01-01").2 (by decide)

/-- Claim C6 fails on the code: the reply-sync entry point can never exit
with code 0.  Line 225 of sync_replies.py calls the name `ReplySyncer`,
which no statement of the module binds (the class is `InstantlySyncer`),
so every run raises `NameError` before a summary exists and the CLI
always exits 1 — even on inputs whose sync summary would have an empty
`errors` list, as the second conjunct shows for the zero-campaign run. -/
theorem C6_exit_always_one :
    (∀ (apiKey : Option String) (campaigns : List (Campaign InstLeadR))
       (st : SheetState), scriptSyncRepliesExit apiKey campaigns st = 1) ∧
    (sync_replies [] emptyState).1.errors = [] := by
  constructor
  · intro apiKey campaigns st
    unfold scriptSyncRepliesExit sync_replies_from_instantly
    cases apiKey with
    | none => rfl
    | some k =>
        rw [if_neg (by decide)]
  · decide

/-- A backing-store failure during `update_lead` yields `False` with the
store unchanged. -/
theorem update_lead_failing (st : SheetState) (lead_id : String)
    (updates : List (String × String)) (h : lead_id ∈ st.failingIds) :
    update_lead st lead_id updates = (false, st) := by
  unfold update_lead
  rw [if_pos h]

/-- `update_from_instantly` returns `False` when the matched lead's
update fails on the backing store. -/
theorem update_from_instantly_failing (st : SheetState) (email : String)
    (d : InstantlyData) (lead : LeadDict) (v : Int)
    (hsome : find_lead_by_email st email = some lead)
    (hopens : d.opens = some v) (hmem : lead.id ∈ st.failingIds) :
    update_from_instantly st email d = (false, st) := by
  unfold update_from_instantly
  rw [hsome]
  dsimp only
  rw [hopens]
  dsimp only
  rw [if_neg (by simp)]
  exact update_lead_failing _ _ _ hmem

/-- Claim C10: `update_from_instantly` returns the same `False` both when
no CRM lead matches the email and when the matched lead's update fails on
the backing store, so the engagement-sync variant counts a failed update
of a matched lead in `not_in_crm`, adds nothing to `errors`, and leaves
the store unchanged. -/
theorem C10_update_failure_conflated :
    (∀ (st : SheetState) (email : String) (d : InstantlyData),
       find_lead_by_email st email = none →
       (update_from_instantly st email d).1 = false) ∧
    (∀ (st : SheetState) (email : String) (d : InstantlyData)
       (lead : LeadDict),
       find_lead_by_email st email = some lead → d.opens.isSome = true →
       lead.id ∈ st.failingIds →
       (update_from_instantly st email d).1 = false) ∧
    (∀ (st : SheetState) (res : SyncAllResults) (l : InstLeadE)
       (email : String) (lead : LeadDict),
       l.email = some email → email ≠ "" →
       find_lead_by_email st email = some lead →
       lead.id ∈ st.failingIds →
       (processInstantlyLead st res l).1 = st ∧
       (processInstantlyLead st res l).2.errors = res.errors ∧
       (processInstantlyLead st res l).2.not_in_crm = res.not_in_crm + 1 ∧
       (processInstantlyLead st res l).2.crm_updated = res.crm_updated) := by
  refine ⟨?_, ?_, ?_⟩
  · intro st email d hnone
    unfold update_from_instantly
    rw [hnone]
  · intro st email d lead hsome hopens hmem
    obtain ⟨v, hv⟩ := Option.isSome_iff_exists.mp hopens
    rw [update_from_instantly_failing st email d lead v hsome hv hmem]
  · intro st res l email lead hemail hne hsome hmem
    unfold processInstantlyLead
    rw [hemail]
    dsimp only
    rw [if_neg (by simpa using hne)]
    have hupd : update_from_instantly st email
        { opens := some (l.email_open_count.getD 0)
          clicks := some (l.email_click_count.getD 0)
          instantly_status := some (instantlyStatusLabel l.status)
          response :=
            if l.email_reply_count.getD 0 > 0 then
              some ("Replied (" ++ toString (l.email_reply_count.getD 0) ++
                " replies)")
            else none } = (false, st) :=
      update_from_instantly_failing st email _ lead _ hsome rfl hmem
    rw [hupd]
    rw [if_neg (show ¬((false, st).1 = true) from by simp)]
    dsimp only
    split <;> exact ⟨rfl, rfl, rfl, rfl⟩

/-- Witness for C6: a concrete run whose summary would be error-free
still exits 1. -/
theorem C6_witness :
    scriptSyncRepliesExit (some "key") [] emptyState = 1 :=
  C6_exit_always_one.1 (some "key") [] emptyState

/-- Witness for C10 at a concrete store whose backing update fails: the
lead is matched, the update fails, `not_in_crm` is incremented and
`errors` stays empty. -/
theorem C10_witness :
    (processInstantlyLead joFailState zeroAllResults
      { email := some "jo@acme.com", email_reply_count := some 2 }).2.errors =
      zeroAllResults.errors ∧
    (processInstantlyLead joFailState zeroAllResults
      { email := some "jo@acme.com", email_reply_count := some 2 }).2.not_in_crm =
      zeroAllResults.not_in_crm + 1 :=
  ⟨(C10_update_failure_conflated.2.2 joFailState zeroAllResults
      { email := some "jo@acme.com", email_reply_count := some 2 }
      "jo@acme.com" (rowToDict joRow) rfl (by decide) (by decide)
      (by decide)).2.1,
   (C10_update_failure_conflated.2.2 joFailState zeroAllResults
      { email := some "jo@acme.com", email_reply_count := some 2 }
      "jo@acme.com" (rowToDict joRow) rfl (by decide) (by decide)
      (by decide)).2.2.1⟩

/-- Writing one list position leaves every other position unchanged. -/
theorem getD_set_ne {α : Type} (l : List α) (i j : Nat) (a d : α) (h : i ≠ j) :
    (l.set i a).getD j d = l.getD j d := by
  simp [List.getD_eq_getElem?_getD, List.getElem?_set_ne h]

/-- Writing one in-range list position stores the written value there. -/
theorem getD_set_self {α : Type} (l : List α) (i : Nat) (a d : α)
    (hi : i < l.length) : (l.set i a).getD i d = a := by
  simp [List.getD_eq_getElem?_getD, List.getElem?_set_eq_of_lt a hi]

/-- The preservation invariant holds reflexively. -/
theorem respInv_refl (st : SheetState) : RespInv st st :=
  ⟨rfl, rfl, fun _ => ⟨rfl, fun _ => rfl⟩⟩

/-- The invariant fixes the id column of the store. -/
theorem rowIds_eq_of_inv {st0 st : SheetState} (hinv : RespInv st0 st) :
    rowIds st = rowIds st0 := by
  apply List.ext_getElem
  · simp [rowIds, hinv.1]
  · intro i h1 h2
    simp only [rowIds, List.length_map] at h1 h2
    simp only [rowIds, List.getElem_map]
    have h := (hinv.2.2 i).1
    rwa [List.getD_eq_getElem _ _ h1, List.getD_eq_getElem _ _ h2] at h

/-- A row located by `find?` sits at some in-range index of the store. -/
theorem find?_index (rows : List Row) (p : Row → Bool) (r : Row)
    (h : rows.find? p = some r) :
    ∃ j, j < rows.length ∧ rows.getD j [] = r := by
  rw [List.find?_eq_some] at h
  obtain ⟨hp, as, bs, heq, hfail⟩ := h
  subst heq
  refine ⟨as.length, by simp, ?_⟩
  rw [List.getD_eq_getElem _ _ (by simp)]
  rw [List.getElem_append_right (Nat.le_refl as.length)]
  simp

/-- `update_lead` returns `False` with the store unchanged when no row
carries the id. -/
theorem update_lead_notfound (st : SheetState) (lead_id : String)
    (updates : List (String × String)) (hfail : lead_id ∉ st.failingIds)
    (hidx : st.rows.findIdx? (fun q => q.getD 0 "" == lead_id) = none) :
    update_lead st lead_id updates = (false, st) := by
  unfold update_lead
  rw [if_neg hfail, hidx]

/-- On a found row and a healthy store, `mark_response_received` writes
the reply text into cell 21 and "Replied" into cell 12 of that row. -/
theorem mark_response_found (st : SheetState) (lead_id text : String)
    (rowIdx : Nat) (hfail : lead_id ∉ st.failingIds)
    (hidx : st.rows.findIdx? (fun q => q.getD 0 "" == lead_id) = some rowIdx) :
    mark_response_received st lead_id text =
      (true, { st with rows := (st.rows.set rowIdx
          (((st.rows.getD rowIdx []).set 20 text).set 11 "Replied")) }) := by
  unfold mark_response_received update_lead
  rw [if_neg hfail, hidx]
  rfl

/-- Under pairwise distinct ids, the row found by id is the row already
located by email. -/
theorem findIdx_id_unique (st : SheetState) (hnd : (rowIds st).Nodup)
    (r : Row) (j : Nat) (hj : j < st.rows.length)
    (hjr : st.rows.getD j [] = r) (rowIdx : Nat)
    (hidx : st.rows.findIdx? (fun q => q.getD 0 "" == r.getD 0 "") =
      some rowIdx) :
    rowIdx = j := by
  rw [List.findIdx?_eq_some_iff_findIdx_eq] at hidx
  obtain ⟨hlt, hfind⟩ := hidx
  have hlen : (rowIds st).length = st.rows.length := by simp [rowIds]
  have hlt2 : rowIdx < (rowIds st).length := by omega
  have hj2 : j < (rowIds st).length := by omega
  have hpred : (st.rows[rowIdx]).getD 0 "" = r.getD 0 "" := by
    have hw : st.rows.findIdx (fun q => q.getD 0 "" == r.getD 0 "") <
        st.rows.length := by rw [hfind]; exact hlt
    have hp := @List.findIdx_getElem _ _ _ hw
    simp only [hfind] at hp
    simpa using hp
  have h1 : (rowIds st)[rowIdx] = r.getD 0 "" := by
    simp only [rowIds, List.getElem_map]
    exact hpred
  have h2 : (rowIds st)[j] = r.getD 0 "" := by
    simp only [rowIds, List.getElem_map]
    rw [← List.getD_eq_getElem st.rows [] hj, hjr]
  exact (List.Nodup.getElem_inj_iff hnd).mp (h1.trans h2.symm)

/-- Writing a reply into a row whose `Response` cell is empty preserves
the invariant. -/
theorem set_resp_inv (st0 st : SheetState) (hinv : RespInv st0 st)
    (rowIdx : Nat) (text : String)
    (hempty : (st.rows.getD rowIdx []).getD 20 "" = "") :
    RespInv st0 { st with rows := (st.rows.set rowIdx
      (((st.rows.getD rowIdx []).set 20 text).set 11 "Replied")) } := by
  refine ⟨by simp [hinv.1], hinv.2.1, ?_⟩
  intro i
  by_cases hi : i = rowIdx
  · subst hi
    by_cases hl : i < st.rows.length
    · constructor
      · rw [getD_set_self _ _ _ _ hl]
        rw [getD_set_ne _ _ _ _ _ (by omega), getD_set_ne _ _ _ _ _ (by omega)]
        exact (hinv.2.2 i).1
      · intro hne
        have h := (hinv.2.2 i).2 hne
        rw [hempty] at h
        exact absurd h.symm hne
    · have hout : (st.rows.set i
          (((st.rows.getD i []).set 20 text).set 11 "Replied")).getD i [] =
          ([] : Row) :=
        List.getD_eq_default _ _ (by simp; omega)
      have hout0 : (st0.rows.getD i []) = ([] : Row) :=
        List.getD_eq_default _ _ (by rw [← hinv.1]; omega)
      have houts : (st.rows.getD i []) = ([] : Row) :=
        List.getD_eq_default _ _ (by omega)
      constructor
      · rw [hout, hout0]
      · intro hne
        rw [hout0] at hne
        simp at hne
  · constructor
    · rw [getD_set_ne _ _ _ _ _ (fun h => hi h.symm)]
      exact (hinv.2.2 i).1
    · intro hne
      rw [getD_set_ne _ _ _ _ _ (fun h => hi h.symm)]
      exact (hinv.2.2 i).2 hne

/-- A backing-store failure makes `mark_response_received` return `False`
with the store unchanged. -/
theorem mark_response_failing (st : SheetState) (lead_id text : String)
    (h : lead_id ∈ st.failingIds) :
    mark_response_received st lead_id text = (false, st) :=
  update_lead_failing st lead_id _ h

/-- `mark_response_received` returns `False` with the store unchanged
when no row carries the id. -/
theorem mark_response_notfound (st : SheetState) (lead_id text : String)
    (hfail : lead_id ∉ st.failingIds)
    (hidx : st.rows.findIdx? (fun q => q.getD 0 "" == lead_id) = none) :
    mark_response_received st lead_id text = (false, st) := by
  unfold mark_response_received
  exact update_lead_notfound st lead_id _ hfail hidx

/-- Processing one replied entry preserves the invariant: the only write
targets a row whose `Response` cell is empty in the current store, and
under distinct ids that is the very row the email lookup produced. -/
theorem processRepliedLead_inv (st0 : SheetState) (hnd : (rowIds st0).Nodup)
    (st : SheetState) (res : SyncResults) (entry : RepliedEntry)
    (hinv : RespInv st0 st) :
    RespInv st0 (processRepliedLead st res entry).1 := by
  unfold processRepliedLead
  cases hem : entry.email with
  | none => exact hinv
  | some email =>
      dsimp only
      by_cases he0 : (email == "") = true
      · rw [if_pos he0]
        exact hinv
      · rw [if_neg he0]
        cases hfind : find_lead_by_email st email with
        | none => exact hinv
        | some crm_lead =>
            dsimp only
            by_cases hresp : (crm_lead.response != "") = true
            · rw [if_pos hresp]
              exact hinv
            · rw [if_neg hresp]
              have hrespEq : crm_lead.response = "" := by
                simpa using hresp
              have hfind2 := hfind
              unfold find_lead_by_email findCellRow at hfind2
              obtain ⟨r, hr, hmap⟩ := Option.map_eq_some'.mp hfind2
              obtain ⟨j, hj, hjr⟩ := find?_index _ _ _ hr
              have hid : crm_lead.id = r.getD 0 "" := by
                rw [← hmap, rowToDict_id]
              have hre : r.getD 20 "" = "" := by
                rw [← rowToDict_response r, hmap, hrespEq]
              by_cases hfail : crm_lead.id ∈ st.failingIds
              · rw [mark_response_failing st crm_lead.id _ hfail]
                dsimp only
                rw [if_neg (show ¬((false, st).1 = true) from by simp)]
                exact hinv
              · cases hidx : st.rows.findIdx?
                    (fun q => q.getD 0 "" == crm_lead.id) with
                | none =>
                    rw [mark_response_notfound st crm_lead.id _ hfail hidx]
                    dsimp only
                    rw [if_neg (show ¬((false, st).1 = true) from by simp)]
                    exact hinv
                | some rowIdx =>
                    rw [mark_response_found st crm_lead.id _ rowIdx hfail hidx]
                    dsimp only
                    rw [if_pos rfl]
                    have hjeq : rowIdx = j := by
                      apply findIdx_id_unique st _ r j hj hjr rowIdx
                      · rw [← hid]
                        exact hidx
                      · rw [rowIds_eq_of_inv hinv]
                        exact hnd
                    have hempty : (st.rows.getD rowIdx []).getD 20 "" = "" := by
                      rw [hjeq, hjr]
                      exact hre
                    exact set_resp_inv st0 st hinv rowIdx _ hempty

/-- The replied-entries loop preserves the invariant. -/
theorem foldl_entries_inv (st0 : SheetState) (hnd : (rowIds st0).Nodup) :
    ∀ (entries : List RepliedEntry) (st : SheetState) (res : SyncResults),
      RespInv st0 st →
      RespInv st0
        ((entries.foldl (fun p entry => processRepliedLead p.1 p.2 entry)
          (st, res)).1) := by
  intro entries
  induction entries with
  | nil => intro st res h; exact h
  | cons e es ih =>
      intro st res h
      rw [List.foldl_cons]
      exact ih _ _ (processRepliedLead_inv st0 hnd st res e h)

/-- One campaign of the reply-only pass preserves the invariant. -/
theorem processCampaignR_inv (st0 : SheetState) (hnd : (rowIds st0).Nodup)
    (p : SheetState × SyncResults) (c : Campaign InstLeadR)
    (h : RespInv st0 p.1) : RespInv st0 (processCampaignR p c).1 := by
  unfold processCampaignR
  cases hf : c.fetch with
  | error e => exact h
  | ok leads =>
      dsimp only
      exact foldl_entries_inv st0 hnd _ _ _ h

/-- A full reply-only pass satisfies the preservation invariant relative
to its initial store, provided the stored ids are pairwise distinct. -/
theorem sync_replies_inv (campaigns : List (Campaign InstLeadR))
    (st : SheetState) (hnd : (rowIds st).Nodup) :
    RespInv st (sync_replies campaigns st).2 := by
  unfold sync_replies
  dsimp only
  suffices h : ∀ (cs : List (Campaign InstLeadR))
      (p : SheetState × SyncResults), RespInv st p.1 →
      RespInv st (cs.foldl processCampaignR p).1 by
    exact h campaigns _ (respInv_refl st)
  intro cs
  induction cs with
  | nil => intro p h; exact h
  | cons c cs ih =>
      intro p h
      rw [List.foldl_cons]
      exact ih _ (processCampaignR_inv st hnd p c h)

/-- Counterexample to claim C1 as stated: in the engagement-sync variant,
a CRM lead whose `Response` cell already holds "Interested" has it
overwritten with the synthesized reply text as soon as the platform
reports a positive reply count — `update_from_instantly` has no
already-synced guard. -/
theorem C1_counterexample :
    (joState.rows.getD 0 []).getD 20 "" = "Interested" ∧
    ((sync_all_leads [joCampaignE] joState).2.rows.getD 0 []).getD 20 "" =
      "Replied (2 replies)" := by
  decide

/-- Claim C1 (amended): the reply-only pass preserves every already
recorded reply — on a store with pairwise distinct row ids, any
`sync_replies` run leaves every row's non-empty `Response` cell (index
20) unchanged — and a replied platform lead whose CRM match has a truthy
`response` is counted in `already_synced` with the store untouched.  (The
engagement-sync variant does not share this guard; see the
counterexample.) -/
theorem C1_amended_reply_pass :
    (∀ (campaigns : List (Campaign InstLeadR)) (st : SheetState),
      (rowIds st).Nodup →
      ∀ i : Nat, (st.rows.getD i []).getD 20 "" ≠ "" →
        ((sync_replies campaigns st).2.rows.getD i []).getD 20 "" =
          (st.rows.getD i []).getD 20 "") ∧
    (∀ (st : SheetState) (res : SyncResults) (entry : RepliedEntry)
       (email : String) (crm_lead : LeadDict),
      entry.email = some email → email ≠ "" →
      find_lead_by_email st email = some crm_lead →
      crm_lead.response ≠ "" →
      processRepliedLead st res entry =
        (st, { res with already_synced := res.already_synced + 1 })) := by
  constructor
  · intro campaigns st hnd i hne
    exact ((sync_replies_inv campaigns st hnd).2.2 i).2 hne
  · intro st res entry email crm_lead hem hne hfind hresp
    unfold processRepliedLead
    rw [hem]
    dsimp only
    rw [if_neg (show ¬((email == "") = true) from by simpa using hne)]
    rw [hfind]
    dsimp only
    rw [if_pos (show (crm_lead.response != "") = true from by
      simpa using hresp)]

/-- Witness for C1 at a concrete store and campaign: the recorded reply
"Interested" survives a full reply-only pass, and the matching replied
entry increments `already_synced` leaving the store unchanged. -/
theorem C1_witness :
    ((sync_replies [joCampaignR] joState).2.rows.getD 0 []).getD 20 "" =
      (joState.rows.getD 0 []).getD 20 "" ∧
    processRepliedLead joState zeroSyncResults
      { email := some "jo@acme.com", replied_at := none, reply_text := "",
        status := "replied" } =
      (joState, { zeroSyncResults with
        already_synced := zeroSyncResults.already_synced + 1 }) :=
  ⟨C1_amended_reply_pass.1 [joCampaignR] joState (by decide) 0 (by decide),
   C1_amended_reply_pass.2 joState zeroSyncResults
     { email := some "jo@acme.com", replied_at := none, reply_text := "",
       status := "replied" } "jo@acme.com" (rowToDict joRow) rfl (by decide)
     (by decide) (by decide)⟩
